import Mathlib

/-!
Formal model of the series-renaming service (lib.js and api.js) and proofs
about its batch-format checking, classification, extraction, retry/cache and
path-planning behaviour.

The external text-generation service is nondeterministic, so the code is
modelled relative to an abstract response function: the api layer relative to
a client stub indexed by the global invocation count, and the lib layer
relative to a response function from request tuples to outcomes.
-/

namespace SeriesRenamer

/-- Errors thrown by the JavaScript code, identified by their message string. -/
abbrev JsError := String

/-- Numeric JavaScript values as they occur in this program: an integer or NaN.
Every number appearing in the service prompts, responses and tests of the
repository is an integer, so fractional values are not modelled. -/
inductive JSNum where
  | int (i : Int)
  | nan
deriving DecidableEq, Repr

/-- JSON-like JavaScript values: the possible results of JSON.parse on a
service response, extended with undefined (the value of a missing object
field, and the overall result of an exhausted retry loop). Arrays are not
modelled as a separate constructor: no code path of the repository reads an
array out of a parsed response object. -/
inductive JSVal where
  | undef
  | null
  | bool (b : Bool)
  | num (n : JSNum)
  | str (s : String)
  | obj (fields : List (String × JSVal))

/-- JavaScript truthiness: undefined, null, false, 0, NaN and the empty
string are falsy, everything else is truthy. -/
def truthy : JSVal → Bool
  | JSVal.undef => false
  | JSVal.null => false
  | JSVal.bool b => b
  | JSVal.num (JSNum.int i) => if i = 0 then false else true
  | JSVal.num JSNum.nan => false
  | JSVal.str s => if s = "" then false else true
  | JSVal.obj _ => true

/-- First-match association lookup for object fields. -/
def fieldLookup : List (String × JSVal) → String → Option JSVal
  | [], _ => none
  | (k, v) :: rest, key => if key = k then some v else fieldLookup rest key

/-- Property access v[k] in JavaScript: reading a property of undefined or
null throws a TypeError; on any other non-object value it yields undefined;
on an object it yields the field value or undefined when absent. -/
def getField (v : JSVal) (k : String) : Except JsError JSVal :=
  match v with
  | JSVal.undef => Except.error ("Cannot read properties of undefined (reading \x27" ++ k ++ "\x27)")
  | JSVal.null => Except.error ("Cannot read properties of null (reading \x27" ++ k ++ "\x27)")
  | JSVal.obj fields =>
    match fieldLookup fields k with
    | some fv => Except.ok fv
    | none => Except.ok JSVal.undef
  | _ => Except.ok JSVal.undef

/-- Rendering of a JavaScript number by Number.prototype.toString. -/
def jsNumToString : JSNum → String
  | JSNum.int i => Int.repr i
  | JSNum.nan => "NaN"

/-- String coercion of a JavaScript value, as performed by template literals
and by String(v); a plain object renders as the usual object placeholder. -/
def jsToString : JSVal → String
  | JSVal.undef => "undefined"
  | JSVal.null => "null"
  | JSVal.bool true => "true"
  | JSVal.bool false => "false"
  | JSVal.num n => jsNumToString n
  | JSVal.str s => s
  | JSVal.obj _ => "[object Object]"

/-- Numeric value of a decimal digit character. -/
def digitVal (c : Char) : Nat := c.toNat - 48

/-- Value of a list of decimal digit characters. -/
def natOfDigits (ds : List Char) : Nat := ds.foldl (fun acc c => acc * 10 + digitVal c) 0

/-- JavaScript parseInt on a string: skip leading whitespace, an optional
sign, then the longest prefix of decimal digits; NaN when that prefix is
empty. The hexadecimal 0x form is not modelled: it never occurs in the data
of this program. -/
def parseIntStr (s : String) : JSNum :=
  let cs := s.data.dropWhile (fun c => c = ' ' || c = '\t' || c = '\n' || c = '\r')
  match cs with
  | '-' :: rest =>
    let ds := rest.takeWhile Char.isDigit
    if ds.isEmpty then JSNum.nan else JSNum.int (-(natOfDigits ds : Int))
  | '+' :: rest =>
    let ds := rest.takeWhile Char.isDigit
    if ds.isEmpty then JSNum.nan else JSNum.int (natOfDigits ds)
  | _ =>
    let ds := cs.takeWhile Char.isDigit
    if ds.isEmpty then JSNum.nan else JSNum.int (natOfDigits ds)

/-- JavaScript parseInt applied to an arbitrary value: the argument is first
coerced to a string. -/
def jsParseInt (v : JSVal) : JSNum := parseIntStr (jsToString v)

/-- String.prototype.padStart(2, "0"): pad on the left with zeros up to
length two. -/
def padStart2 (s : String) : String :=
  if 2 ≤ s.length then s else String.mk (List.replicate (2 - s.length) '0') ++ s

/-- Two-digit zero-padded decimal rendering of a natural number below 100,
written directly rather than through padStart2; used to state theorems about
the padded season component. -/
def specPad2 (n : Nat) : String :=
  if n < 10 then "0" ++ Nat.repr n else Nat.repr n

/-- JavaScript String.prototype.endsWith as a suffix test. -/
def jsEndsWith (s suffix : String) : Bool := List.isSuffixOf suffix.data s.data

/-! ## Model of the path module (path.posix of Node)

The repository manipulates slash-separated POSIX paths through basename,
parse(...).name, dirname and join. These are modelled directly over character
lists. Inputs in this repository are ordinary file paths without trailing or
duplicated separators; the model normalizes duplicated separators where Node
would preserve them in degenerate cases. -/

/-- Split a character list into the chunks delimited by slash characters. -/
def splitSlash : List Char → List Char → List (List Char)
  | [], acc => [acc.reverse]
  | '/' :: rest, acc => acc.reverse :: splitSlash rest []
  | c :: rest, acc => splitSlash rest (c :: acc)

/-- Whether a path string is absolute. -/
def isAbsolutePath (p : String) : Bool :=
  match p.data with
  | '/' :: _ => true
  | _ => false

/-- One step of path normalization over segments: drop empty and dot
segments, resolve a dot-dot segment against the accumulated (reversed)
prefix. -/
def normStep (isAbs : Bool) (acc : List String) (seg : String) : List String :=
  if seg = "" || seg = "." then acc
  else if seg = ".." then
    match acc with
    | [] => if isAbs then [] else [".."]
    | a :: as => if a = ".." then seg :: acc else as
  else seg :: acc

/-- path.posix.normalize restricted to paths without a trailing separator:
collapse duplicate separators and resolve dot and dot-dot segments. -/
def pnormalize (p : String) : String :=
  let isAbs := isAbsolutePath p
  let segs := (((splitSlash p.data []).map String.mk).foldl (normStep isAbs) []).reverse
  if isAbs then "/" ++ String.intercalate "/" segs
  else
    match segs with
    | [] => "."
    | _ => String.intercalate "/" segs

/-- path.posix.join: concatenate the non-empty arguments with a separator and
normalize; the join of nothing is the current directory. -/
def pjoinList (ps : List String) : String :=
  match ps.filter (fun s => decide (s ≠ "")) with
  | [] => "."
  | nonempty => pnormalize (String.intercalate "/" nonempty)

/-- path.posix.basename: the final path component, ignoring trailing
separators. -/
def pbasename (p : String) : String :=
  let noTrail := (p.data.reverse.dropWhile (fun c => c = '/')).reverse
  String.mk ((noTrail.reverse.takeWhile (fun c => decide (c ≠ '/'))).reverse)

/-- path.posix.dirname: the path up to the final component; the current
directory for a bare file name, the root for a first-level absolute entry. -/
def pdirname (p : String) : String :=
  let cs := p.data
  let noTrail := (cs.reverse.dropWhile (fun c => c = '/')).reverse
  let rest := (noTrail.reverse.dropWhile (fun c => decide (c ≠ '/'))).reverse
  if rest.isEmpty then (if isAbsolutePath p then "/" else ".")
  else
    let restNoTrail := (rest.reverse.dropWhile (fun c => c = '/')).reverse
    if restNoTrail.isEmpty then "/" else String.mk restNoTrail

/-- path.parse(b).name for a base name b without separators: the base name
with its final extension removed; a leading dot (hidden file) does not start
an extension, and the special dot and dot-dot names are kept whole. -/
def stemOf (b : String) : String :=
  if b = "." || b = ".." then b
  else
    let cs := b.data
    let afterDot := cs.reverse.takeWhile (fun c => decide (c ≠ '.'))
    if afterDot.length = cs.length then b
    else
      let nameLen := cs.length - afterDot.length - 1
      if nameLen = 0 then b else String.mk (cs.take nameLen)

/-! ## Model of api.js: client, retry orchestrator and request cache -/

/-- One few-shot example of a request: an input string paired with the
expected output string. -/
structure FewShotExample where
  input : String
  output : String
deriving DecidableEq, Repr

/-- One request tuple sent to the text-generation service: system prompt,
user input, and an optional ordered list of few-shot examples. -/
structure Request where
  system : String
  input : String
  examples : Option (List FewShotExample)
deriving DecidableEq, Repr

/-- Escape of one character inside a JSON string literal, as produced by
JSON.stringify; control characters other than the common escapes do not
occur in the data of this program. -/
def jsonEscapeChar (c : Char) : String :=
  if c = '"' then "\\\""
  else if c = '\\' then "\\\\"
  else if c = '\n' then "\\n"
  else if c = '\t' then "\\t"
  else if c = '\r' then "\\r"
  else String.singleton c

/-- JSON.stringify of a string. -/
def jsonStr (s : String) : String :=
  "\"" ++ String.join (s.data.map jsonEscapeChar) ++ "\""

/-- JSON.stringify of an array of strings. -/
def jsonStringifyStrList (ps : List String) : String :=
  "[" ++ String.intercalate "," (ps.map jsonStr) ++ "]"

/-- JSON.stringify of the request object used as the cache key by
RequestMap: key order follows the object literal (system, input, examples),
and an undefined examples field is omitted entirely. -/
def serializeRequest (r : Request) : String :=
  "\x7b\"system\":" ++ jsonStr r.system ++ ",\"input\":" ++ jsonStr r.input ++
    (match r.examples with
     | none => ""
     | some exs =>
       ",\"examples\":[" ++
         String.intercalate ","
           (exs.map (fun e => "\x7b\"input\":" ++ jsonStr e.input ++ ",\"output\":" ++ jsonStr e.output ++ "\x7d")) ++
         "]") ++
  "\x7d"

/-- Stub of the raw request function of api.js (one chat call to the service
followed by JSON.parse): the Nat argument is the global invocation count, and
the outcome is the parsed JSON value or the thrown error of that attempt. -/
abbrev Client := Nat → Except JsError JSVal

/-- The retry loop of requestRetryWrapper, instrumented with the invocation
counter: with rem attempts remaining, call the client; a success returns its
value, a failure is swallowed and retried. Returns the result (none when the
loop exhausts its attempts, i.e. the JavaScript function falls through and
resolves to undefined) together with the updated invocation count. -/
def retryFrom (client : Client) : Nat → Nat → Option JSVal × Nat
  | 0, calls => (none, calls)
  | rem + 1, calls =>
    match client calls with
    | Except.ok v => (some v, calls + 1)
    | Except.error _ => retryFrom client rem (calls + 1)

/-- requestRetryWrapper of api.js: at most 15 attempts, errors swallowed,
exhaustion resolves to an absent value rather than throwing. The Nat argument
is the invocation count at entry. -/
def requestRetryWrapper (client : Client) (calls : Nat) : Option JSVal × Nat :=
  retryFrom client 15 calls

/-- State of the api.js module: the RequestMap cache (keyed by the
serialized request, storing the response of requestRetryWrapper, which may be
the absent result) and the number of client invocations made so far. -/
structure ServiceState where
  cache : List (String × Option JSVal)
  calls : Nat

/-- First-match lookup in the cache association list. -/
def cacheLookup : List (String × Option JSVal) → String → Option (Option JSVal)
  | [], _ => none
  | (k, v) :: rest, key => if key = k then some v else cacheLookup rest key

/-- requestWrapper of api.js (exported as request): on a cache hit return the
stored response without touching the retry layer; on a miss run the retry
wrapper and store whatever it returns, including the absent result, under the
serialized request key. -/
def requestWrapper (client : Client) (r : Request) (st : ServiceState) :
    Option JSVal × ServiceState :=
  match cacheLookup st.cache (serializeRequest r) with
  | some v => (v, st)
  | none =>
    match requestRetryWrapper client st.calls with
    | (res, calls) => (res, ⟨(serializeRequest r, res) :: st.cache, calls⟩)

/-- Boolean test for a failed client attempt. -/
def exceptIsError (x : Except JsError JSVal) : Bool :=
  match x with
  | Except.error _ => true
  | Except.ok _ => false

/-! ## Model of lib.js

The functions of lib.js call the exported request function of api.js
(requestWrapper). The lib layer is therefore modelled relative to an abstract
response function from request tuples to outcomes: a thrown error or a
JavaScript value (undefined stands for the absent result of an exhausted
retry loop; in that case any subsequent property access throws, which is how
exhaustion surfaces inside the extractors). -/

/-- Abstract outcome of one call to the exported request function for a given
request tuple. -/
abbrev Svc := Request → Except JsError JSVal

/-- Prefix every error of a computation with a message, as the catch blocks
of lib.js rethrow a new error built from the caught message. -/
def wrapErr {α : Type} (pre : String) : Except JsError α → Except JsError α
  | Except.error m => Except.error (pre ++ m)
  | Except.ok v => Except.ok v

/-- System prompt of getEpisodeNumber. -/
def episodeSystem : String :=
  "It is your job to extract the episode number from file paths I give you. You will be given a file path and you must extract the episode number from the file path or name. Please remember that sometimes the episode numbers can be in weird formats Respond with a JSON object: \x7b \x27episode\x27: EpisodeNumber \x7d. Make sure that the field is a number"

/-- Few-shot examples of getEpisodeNumber. -/
def episodeExamples : List FewShotExample :=
  [⟨"/Volumes/Movies/series/Family Guy/Season 03/Family Guy - S03E05 - And The Wiener Is.mkv",
    "\x7b\"episode\":5\x7d"⟩,
   ⟨"general/piracy-vbox-shared/rename/[Anime Time] Attack On Titan (Complete Series) (S01-S04+OVA) [Dual Audio][BD][1080p][HEVC 10bit x265][AAC][Eng Sub]/[Anime Time] Attack on titan (Season 02)/[Anime Time] Attack On Titan - 26.mkv",
    "\x7b\"episode\":26\x7d"⟩]

/-- Request tuple sent by getEpisodeNumber for a given file path. -/
def episodeRequest (filePath : String) : Request :=
  ⟨episodeSystem, filePath, some episodeExamples⟩

/-- System prompt of getSeriesName. -/
def seriesSystem : String :=
  "It is your job to extract the full series name from file paths I give you. You will be given a file path and you must extract the complete series name from the file path or name. Return exactly the Series Name, without the year or any other additions/removals.Respond with a JSON object: \x7b \x27series\x27: \x27Series Name\x27 \x7d."

/-- Few-shot examples of getSeriesName. -/
def seriesExamples : List FewShotExample :=
  [⟨"/Volumes/Movies/series/Family Guy/Season 03/Family Guy - S03E05 - And The Wiener Is.mkv",
    "\x7b\"series\":\"Family Guy\"\x7d"⟩,
   ⟨"[Anime Time] Attack On Titan (Complete Series) (S01-S04+OVA) [Dual Audio][BD][1080p][HEVC 10bit x265][AAC][Eng Sub]",
    "\x7b\"series\":\"Attack On Titan\"\x7d"⟩,
   ⟨"general/piracy-vbox-shared/rename/[Anime Time] Attack On Titan (Complete Series) (S01-S04+OVA) [Dual Audio][BD][1080p][HEVC 10bit x265][AAC][Eng Sub]/[Anime Time] Attack on titan (Season 02)/[Anime Time] Attack On Titan - 26.mkv",
    "\x7b\"series\":\"Attack On Titan\"\x7d"⟩,
   ⟨"/rename/Movies/series/Star Wars The Clone Wars/Season S02/Star Wars The Clone Wars S02E20.mkv",
    "\x7b\"series\":\"Star Wars The Clone Wars\"\x7d"⟩,
   ⟨"/rename/Movies/series/Rome (2005) - 1080p Bluray AV1 OPUS 5.1 -jenkins/Season 01/Rome (2005) S01E01.mkv",
    "\x7b\"series\":\"Rome\"\x7d"⟩,
   ⟨"/rename/Movies/series/Star Wars The Clone Wars/Season S04/Star Wars The Clone Wars S04E20.mkv",
    "\x7b\"series\":\"Star Wars The Clone Wars\"\x7d"⟩,
   ⟨"/Volumes/Movies/encoded-series/move/3 Body Problem S01E02.mkv",
    "\x7b\"series\":\"3 Body Problem\"\x7d"⟩]

/-- Request tuple sent by getSeriesName for a given file path. -/
def seriesRequest (filePath : String) : Request :=
  ⟨seriesSystem, filePath, some seriesExamples⟩

/-- System prompt of getSeasonNumber. -/
def seasonSystem : String :=
  "It is your job to extract the season number from file paths I give you. You will be given a file path and you must extract the season number from the file path or name. Please remember that sometimes the season numbers can be in weird formats Respond with a JSON object: \x7b \x27season\x27: \x27Season Number\x27 \x7d"

/-- Few-shot examples of getSeasonNumber. -/
def seasonExamples : List FewShotExample :=
  [⟨"general/piracy-vbox-shared/rename/[Anime Time] Attack On Titan (Complete Series) (S01-S04+OVA) [Dual Audio][BD][1080p][HEVC 10bit x265][AAC][Eng Sub]/[Anime Time] Attack on titan (Season 02)/[Anime Time] Attack On Titan - 26.mkv",
    "\x7b\"season\":2\x7d"⟩]

/-- Request tuple sent by getSeasonNumber for a given file path. -/
def seasonRequest (filePath : String) : Request :=
  ⟨seasonSystem, filePath, some seasonExamples⟩

/-- getEpisodeNumber of lib.js: ask the service for the episode number; a
falsy episode field is a not-found validation failure, an episode field that
parseInt cannot turn into a number is a not-a-number validation failure, and
any error is rethrown with the Ollama API prefix. -/
def getEpisodeNumber (svc : Svc) (filePath : String) : Except JsError JSNum :=
  wrapErr "Failed to get episode number of the file from Ollama API: "
    (match svc (episodeRequest filePath) with
     | Except.error e => Except.error e
     | Except.ok jsonResponse =>
       match getField jsonResponse "episode" with
       | Except.error e => Except.error e
       | Except.ok ep =>
         if truthy ep then
           match jsParseInt ep with
           | JSNum.nan => Except.error "Episode number is not a number"
           | JSNum.int i => Except.ok (JSNum.int i)
         else Except.error "Episode number not found in the response")

/-- getSeriesName of lib.js: ask the service for the series name; a falsy
series field is a not-found validation failure; the field value is returned
as-is, and any error is rethrown with the Ollama API prefix. -/
def getSeriesName (svc : Svc) (filePath : String) : Except JsError JSVal :=
  wrapErr "Failed to get series name of the file from Ollama API: "
    (match svc (seriesRequest filePath) with
     | Except.error e => Except.error e
     | Except.ok jsonResponse =>
       match getField jsonResponse "series" with
       | Except.error e => Except.error e
       | Except.ok s =>
         if truthy s then Except.ok s
         else Except.error "Series name not found in the response")

/-- getSeasonNumber of lib.js: ask the service for the season number; a falsy
season field is a not-found validation failure; the field value is passed
through parseInt and returned without any further check (in contrast with
getEpisodeNumber there is no not-a-number validation), and any error is
rethrown with the Ollama API prefix. -/
def getSeasonNumber (svc : Svc) (filePath : String) : Except JsError JSNum :=
  wrapErr "Failed to get season number of the file from Ollama API: "
    (match svc (seasonRequest filePath) with
     | Except.error e => Except.error e
     | Except.ok jsonResponse =>
       match getField jsonResponse "season" with
       | Except.error e => Except.error e
       | Except.ok se =>
         if truthy se then Except.ok (jsParseInt se)
         else Except.error "Season number not found in the response")

/-- Extracted metadata of one episode file. -/
structure Details where
  series : JSVal
  season : JSNum
  episode : JSNum

/-- getDetails of lib.js: episode, series and season extraction in that
order, the first failure propagating. -/
def getDetails (svc : Svc) (filePath : String) : Except JsError Details :=
  match getEpisodeNumber svc filePath with
  | Except.error e => Except.error e
  | Except.ok episodeNumber =>
    match getSeriesName svc filePath with
    | Except.error e => Except.error e
    | Except.ok seriesName =>
      match getSeasonNumber svc filePath with
      | Except.error e => Except.error e
      | Except.ok seasonNumber =>
        Except.ok ⟨seriesName, seasonNumber, episodeNumber⟩

/-- System prompt of classifyFile. -/
def classifySystem : String :=
  "It is your job to classify file paths I give you. \nYou will be given a file path and you must classify it as a \x7b \"classification\": \"Movie\" \x7d, an \x7b \"classification\": \"Episode\" \x7d, or \x7b \"classification\": \"Unrelated\" \x7d. \nIf the file ending is the file ending of a video file it is most likely a movie or episode. If it doesn\x27t contain a season and episode number, it is most likely a movie. If the file name contains the word \"Movie\" it is most likely a movie.\nIf you are unsure or the file is unrelated, classify it as \x27Unrelated\x27. \nRespond with a JSON object: \x7b \"classification\": \"Movie\" | \"Episode\" | \"Unrelated\" \x7d"

/-- Few-shot examples of classifyFile. -/
def classifyExamples : List FewShotExample :=
  [⟨"/Volumes/Movies/series/Family Guy/The Movie - Stewie Griffin The Untold Story (Uncensored)/Family Guy - Stewie Griffin The Untold Story (Uncensored).mkv",
    "\x7b\"classification\":\"Movie\"\x7d"⟩,
   ⟨"general/piracy-vbox-shared/rename/[Anime Time] Attack On Titan (Complete Series) (S01-S04+OVA) [Dual Audio][BD][1080p][HEVC 10bit x265][AAC][Eng Sub]/[Anime Time] Attack on titan (Season 03)/NC/NCED 01.mkv",
    "\x7b\"classification\":\"Unrelated\"\x7d"⟩,
   ⟨"/Volumes/Movies/series/Family Guy/Season 03/Family Guy - S03E05 - And The Wiener Is.mkv",
    "\x7b\"classification\":\"Episode\"\x7d"⟩,
   ⟨"/Volumes/Movies/other/Some Random File.mkv",
    "\x7b\"classification\":\"Unrelated\"\x7d"⟩,
   ⟨"/Volumes/Movies/series/KAOS, 2160p NF WEB-DL DD+ 5.1 Atmos H.265-NTb/Season 01/KAOS, 2160p NF WEB-DL DD+ 5.1 Atmos H.265-NTb S01E01.mkv",
    "\x7b\"classification\":\"Episode\"\x7d"⟩,
   ⟨"/Volumes/Movies/series/output.txt",
    "\x7b\"classification\":\"Unrelated\"\x7d"⟩,
   ⟨"The Mandalorian/Season 02/info.txt",
    "\x7b\"classification\":\"Unrelated\"\x7d"⟩,
   ⟨"The Witcher/The Movie.mp4",
    "\x7b\"classification\":\"Movie\"\x7d"⟩,
   ⟨"/Volumes/general/piracy-vbox-shared/rename/Attack On Titan (2013) - 1080p Blu-Ray AAC 2.0 x265-AnimeTime/Season 03/[Anime Time] Attack On Titan - 59.mkv",
    "\x7b\"classification\":\"Episode\"\x7d"⟩,
   ⟨"/Volumes/general/piracy-vbox-shared/piracy-vbox-credentials.kdbx",
    "\x7b\"classification\":\"Unrelated\"\x7d"⟩,
   ⟨"/Volumes/general/piracy-vbox-shared/rename/Berserk/Season 01/[SWORDS] Berserk (1997) - 24 [E15C75DD].mkv",
    "\x7b\"classification\":\"Episode\"\x7d"⟩,
   ⟨"/Movies/downloaded/raw/Game.of.Thrones.S04.1080p.BluRay.AV1.Opus.5.1-onlyfaffs/Game.of.Thrones.S04E01.Two.Swords.1080p.BluRay.AV1.Opus.5.1-onlyfaffs.mkv",
    "\x7b\"classification\":\"Episode\"\x7d"⟩]

/-- Request tuple sent by classifyFile for a given file path. -/
def classifyRequest (filePath : String) : Request :=
  ⟨classifySystem, filePath, some classifyExamples⟩

/-- Body of the try block of classifyFile: the classification field is
returned when the response and that field are both truthy, otherwise an
invalid-response error is thrown. -/
def classifyFileTry (svc : Svc) (filePath : String) : Except JsError JSVal :=
  match svc (classifyRequest filePath) with
  | Except.error e => Except.error e
  | Except.ok response =>
    if truthy response then
      match getField response "classification" with
      | Except.error e => Except.error e
      | Except.ok c =>
        if truthy c then Except.ok c
        else Except.error "Invalid response from Ollama API"
    else Except.error "Invalid response from Ollama API"

/-- classifyFile of lib.js: any failure of the try body, whatever the thrown
error, falls back to the Unrelated classification. -/
def classifyFile (svc : Svc) (filePath : String) : JSVal :=
  match classifyFileTry svc filePath with
  | Except.ok v => v
  | Except.error _ => JSVal.str "Unrelated"

/-- System prompt of checkIfEpisodeMatchesFormatInBatchAI. -/
def batchAISystem : String :=
  "It is your job to check whether the files, which represent episodes of a series, all match the following series format: \x27Series Name SXXEYY\x27. Return a JSON object: \x7b \"matches\": true | false \x7d.\nIf even one file does not match the format, return false. If all files match the format, return true. Be aware that all files need to follow the series format exactly without even one character difference. If you are unsure, return false. Return a JSON object: \x7b \"matches\": true | false \x7d."

/-- Few-shot examples of checkIfEpisodeMatchesFormatInBatchAI; each input is
the JSON serialization of a batch of paths. -/
def batchAIExamples : List FewShotExample :=
  [⟨jsonStringifyStrList
      ["/Volumes/Movies/series/Family Guy/Season 03/Family Guy - S03E05 - And The Wiener Is.mkv",
       "/Volumes/Movies/series/Family Guy/Season 03/Family Guy - S03E06 - Death Lives.mkv"],
    "\x7b\"matches\":false\x7d"⟩,
   ⟨jsonStringifyStrList
      ["/Volumes/Movies/series/Family Guy/Season 03/Family Guy S03E05",
       "/Volumes/Movies/series/Family Guy/Season 03/Family Guy S03E06"],
    "\x7b\"matches\":true\x7d"⟩,
   ⟨jsonStringifyStrList
      ["/Volumes/Shared/todo/Temptation Island/Season 01/Temptation.Island.S01E01.1080p.PCOK.WEB-DL.DDP5.1.x264-WhiteHat.mkv",
       "/Volumes/Shared/todo/Temptation Island/Season 01/Temptation.Island.S01E02.1080p.PCOK.WEB-DL.DDP5.1.x264-WhiteHat.mkv",
       "/Volumes/Shared/todo/Temptation Island/Season 01/Temptation.Island.S01E03.1080p.PCOK.WEB-DL.DDP5.1.x264-WhiteHat.mkv",
       "/Volumes/Shared/todo/Temptation Island/Season 01/Temptation.Island.S01E04.1080p.PCOK.WEB-DL.DDP5.1.x264-WhiteHat.mkv",
       "/Volumes/Shared/todo/Temptation Island/Season 01/Temptation.Island.S01E05.1080p.PCOK.WEB-DL.DDP5.1.x264-WhiteHat.mkv",
       "/Volumes/Shared/todo/Temptation Island/Season 01/Temptation.Island.S01E06.1080p.PCOK.WEB-DL.DDP5.1.x264-WhiteHat.mkv",
       "/Volumes/Shared/todo/Temptation Island/Season 01/Temptation.Island.S01E07.1080p.PCOK.WEB-DL.DDP5.1.x264-WhiteHat.mkv",
       "/Volumes/Shared/todo/Temptation Island/Season 01/Temptation.Island.S01E08.1080p.PCOK.WEB-DL.DDP5.1.x264-WhiteHat.mkv",
       "/Volumes/Shared/todo/Temptation Island/Season 01/Temptation.Island.S01E09.1080p.PCOK.WEB-DL.DDP5.1.x264-WhiteHat.mkv",
       "/Volumes/Shared/todo/Temptation Island/Season 01/Temptation.Island.S01E10.1080p.PCOK.WEB-DL.DDP5.1.x264-WhiteHat.mkv",
       "/Volumes/Shared/todo/Temptation Island/Season 01/Temptation.Island.S01E11.1080p.PCOK.WEB-DL.DDP5.1.x264-WhiteHat.mkv"],
    "\x7b\"matches\":false\x7d"⟩,
   ⟨jsonStringifyStrList
      ["/Volumes/Movies/series/Family Guy/Season 01/Family Guy S01E01.mkv",
       "/Volumes/Movies/series/Family Guy/Season 01/Family Guy S01E02.mkv",
       "/Volumes/Movies/series/Family Guy/Season 01/Family Guy S01E03.mkv",
       "/Volumes/Movies/series/Family Guy/Season 01/Family Guy S01E04.mkv",
       "/Volumes/Movies/series/Family Guy/Season 01/Family Guy S01E05.mkv",
       "/Volumes/Movies/series/Family Guy/Season 01/Family Guy S01E06.mkv",
       "/Volumes/Movies/series/Family Guy/Season 01/Family Guy S01E07.mkv"],
    "\x7b\"matches\":true\x7d"⟩,
   ⟨jsonStringifyStrList
      ["/Volumes/Movies/series/Family Guy/Season 01/Family Guy S01E01.mkv",
       "/Volumes/Movies/series/Family Guy/Season 01/Family Guy S01E02.mkv",
       "/Volumes/Movies/series/Family Guy/Season 01/Family Guy S01E03 - The Sheep in the bag.mkv",
       "/Volumes/Movies/series/Family Guy/Season 01/Family Guy S01E04.mkv",
       "/Volumes/Movies/series/Family Guy/Season 01/Family Guy S01E05.mkv",
       "/Volumes/Movies/series/Family Guy/Season 01/Family Guy S01E06.mkv",
       "/Volumes/Movies/series/Family Guy/Season 01/Family Guy S01E07.mkv"],
    "\x7b\"matches\":false\x7d"⟩,
   ⟨jsonStringifyStrList
      ["/Volumes/Movies/series/Invincible/Season 02/Invincible S02E01.mkv",
       "/Volumes/Movies/series/Invincible/Season 02/Invincible S02E02.mkv",
       "/Volumes/Movies/series/Invincible/Season 02/Invincible S02E03.mkv",
       "/Volumes/Movies/series/Invincible/Season 02/Invincible S02E04.mkv",
       "/Volumes/Movies/series/Invincible/Season 02/Invincible S02E05.mkv",
       "/Volumes/Movies/series/Invincible/Season 02/Invincible S02E06.mkv",
       "/Volumes/Movies/series/Invincible/Season 02/Invincible S02E08.mkv",
       "/Volumes/Movies/series/Invincible/Season 02/Invincible S02E7.mkv"],
    "\x7b\"matches\":false\x7d"⟩,
   ⟨jsonStringifyStrList
      ["/Volumes/Movies/series/.DS_Store",
       "/Volumes/Movies/series/output.txt",
       "/Volumes/Movies/series/rename.py"],
    "\x7b\"matches\":false\x7d"⟩]

/-- Request tuple sent by checkIfEpisodeMatchesFormatInBatchAI for a batch of
file paths: the input is the JSON serialization of the path array. -/
def batchAIRequest (filePaths : List String) : Request :=
  ⟨batchAISystem, jsonStringifyStrList filePaths, some batchAIExamples⟩

/-- checkIfEpisodeMatchesFormatInBatchAI of lib.js: the whole batch is sent
to the service as one JSON array, and the response must carry a boolean
matches field; note that the top-level catch rethrows a wrapped error rather
than resolving to false. -/
def checkIfEpisodeMatchesFormatInBatchAI (svc : Svc) (filePaths : List String) :
    Except JsError Bool :=
  wrapErr "Failed to check if episodes match format in batch from Ollama API: "
    (match svc (batchAIRequest filePaths) with
     | Except.error e => Except.error e
     | Except.ok jsonResponse =>
       match getField jsonResponse "matches" with
       | Except.error e => Except.error e
       | Except.ok m =>
         match m with
         | JSVal.bool b => Except.ok b
         | _ => Except.error "Matches field not found in the response")

/-- Strict equality of the classification result with the string literal
Episode, as tested by the checker and the rename driver. -/
def isEpisodeClass (v : JSVal) : Bool :=
  match v with
  | JSVal.str s => decide (s = "Episode")
  | _ => false

/-- Test of the constructed regular expression against one file name stem.
The source builds the anchored pattern from the series name, the padded
season and a two-digit episode wildcard, and the series name is interpolated
into the pattern text; the model treats the interpolated series name as
literal text, which is exact for every series name free of regex
metacharacters (all names occurring in the prompts and tests of the repository
are). -/
def matchesFormatRegex (series padded stem : String) : Bool :=
  let pre := (series ++ " S" ++ padded ++ "E").data
  let rest := stem.data.drop pre.length
  List.isPrefixOf pre stem.data && (rest.length == 2 && rest.all Char.isDigit)

/-- Body of the try block of checkIfEpisodeMatchesFormatInBatch: an empty
batch is vacuously canonical; otherwise the first path is classified, a
non-Episode classification short-circuits to false, series and season are
extracted from the first path only, and the stem of every path must match the
derived anchored pattern. -/
def checkBatchTry (svc : Svc) (filePaths : List String) : Except JsError Bool :=
  match filePaths with
  | [] => Except.ok true
  | first :: _ =>
    if isEpisodeClass (classifyFile svc first) then
      match getSeriesName svc first with
      | Except.error e => Except.error e
      | Except.ok seriesName =>
        match getSeasonNumber svc first with
        | Except.error e => Except.error e
        | Except.ok seasonNumber =>
          Except.ok
            (filePaths.all fun filePath =>
              matchesFormatRegex (jsToString seriesName)
                (padStart2 (jsNumToString seasonNumber))
                (stemOf (pbasename filePath)))
    else Except.ok false

/-- checkIfEpisodeMatchesFormatInBatch of lib.js (the deterministic
strategy): any error anywhere inside the try body is caught at the top and
the call resolves to false. -/
def checkIfEpisodeMatchesFormatInBatch (svc : Svc) (filePaths : List String) : Bool :=
  match checkBatchTry svc filePaths with
  | Except.ok b => b
  | Except.error _ => false

/-- TypeError message of Node when path.join receives a non-string argument
(the series field of a response need not be a string). -/
def pathArgTypeErrorMsg : String :=
  "The \"path\" argument must be of type string"

/-- generateNewFilePathIncludingParentFolders of lib.js: extract details from
the extension-stripped stem of the base name, build
series/Season NN/fileName, and join it beneath the directory of the original
file. -/
def generateNewFilePathIncludingParentFolders (svc : Svc) (filePath : String) :
    Except JsError String :=
  match getDetails svc (stemOf (pbasename filePath)) with
  | Except.error e => Except.error e
  | Except.ok details =>
    match details.series with
    | JSVal.str series =>
      Except.ok
        (pjoinList [pdirname filePath,
          pjoinList [series,
            "Season " ++ padStart2 (jsNumToString details.season),
            pbasename filePath]])
    | _ => Except.error pathArgTypeErrorMsg

/-- getNewFilePathsIncludingParentFolders of lib.js: for each full file path,
compute the single-file plan and push its join beneath the directory of the file
(the plan already contains that directory). -/
def getNewFilePathsIncludingParentFolders (svc : Svc) :
    List String → Except JsError (List String)
  | [] => Except.ok []
  | fullFilePath :: rest =>
    match generateNewFilePathIncludingParentFolders svc fullFilePath with
    | Except.error e => Except.error e
    | Except.ok newPath =>
      match getNewFilePathsIncludingParentFolders svc rest with
      | Except.error e => Except.error e
      | Except.ok others => Except.ok (pjoinList [pdirname fullFilePath, newPath] :: others)

/-- checkIfFileIsAlreadyInCorrectFoler of lib.js: plan the canonical path
from the base file name alone and test whether the full path ends with that
plan. -/
def checkIfFileIsAlreadyInCorrectFoler (svc : Svc) (filePath : String) :
    Except JsError Bool :=
  match generateNewFilePathIncludingParentFolders svc (pbasename filePath) with
  | Except.error e => Except.error e
  | Except.ok newPath => Except.ok (jsEndsWith filePath newPath)

/-! ## Concrete response functions and client stubs used by the witnesses -/

/-- Response function answering every extraction and classification request
about a file stem of the show named Show, season 2, episode 20. -/
def svcShow : Svc := fun r =>
  if r.system = classifySystem then Except.ok (JSVal.obj [("classification", JSVal.str "Episode")])
  else if r.system = episodeSystem then Except.ok (JSVal.obj [("episode", JSVal.num (JSNum.int 20))])
  else if r.system = seriesSystem then Except.ok (JSVal.obj [("series", JSVal.str "Show")])
  else if r.system = seasonSystem then Except.ok (JSVal.obj [("season", JSVal.num (JSNum.int 2))])
  else Except.error "unexpected request"

/-- Response function answering every extraction and classification request
about a file stem of the show named Show, season 1, episode 1. -/
def svcShow1 : Svc := fun r =>
  if r.system = classifySystem then Except.ok (JSVal.obj [("classification", JSVal.str "Episode")])
  else if r.system = episodeSystem then Except.ok (JSVal.obj [("episode", JSVal.num (JSNum.int 1))])
  else if r.system = seriesSystem then Except.ok (JSVal.obj [("series", JSVal.str "Show")])
  else if r.system = seasonSystem then Except.ok (JSVal.obj [("season", JSVal.num (JSNum.int 1))])
  else Except.error "unexpected request"

/-- Response function of an unreachable service: every request throws. -/
def svcDown : Svc := fun _ => Except.error "service unavailable"

/-- Response function whose season answer is the non-numeric string abc and
whose other answers throw. -/
def svcSeasonAbc : Svc := fun r =>
  if r.system = seasonSystem then Except.ok (JSVal.obj [("season", JSVal.str "abc")])
  else Except.error "unexpected request"

/-- Response function whose season answer carries no season field and whose
episode answer is a non-numeric string. -/
def svcNoSeason : Svc := fun r =>
  if r.system = seasonSystem then Except.ok (JSVal.obj [("other", JSVal.num (JSNum.int 1))])
  else if r.system = episodeSystem then Except.ok (JSVal.obj [("episode", JSVal.str "xx")])
  else Except.error "unexpected request"

/-- Client stub that fails on the first two invocations and then succeeds. -/
def clientFlaky : Client := fun i =>
  if i < 2 then Except.error "bad json" else Except.ok (JSVal.obj [("test", JSVal.bool true)])

/-- Client stub that fails on every invocation. -/
def clientAlwaysFails : Client := fun _ => Except.error "bad json"

/-- Client stub that succeeds on every invocation. -/
def clientAlwaysOk : Client := fun _ => Except.ok (JSVal.bool true)

/-- Small concrete request tuple used by the cache witnesses. -/
def rTest : Request := ⟨"sys", "in", none⟩

/-! ## Helper lemmas -/

/-- Unfolding equation of the retry loop for a positive number of remaining
attempts. -/
theorem retryFrom_succ_eq (client : Client) (rem calls : Nat) :
    retryFrom client (rem + 1) calls =
      match client calls with
      | Except.ok v => (some v, calls + 1)
      | Except.error _ => retryFrom client rem (calls + 1) := rfl

/-- Against a client that fails every attempt, the retry loop exhausts all
its remaining attempts and yields the absent result. -/
theorem retryFrom_all_fail (client : Client) (hall : ∀ j, exceptIsError (client j) = true) :
    ∀ rem calls, retryFrom client rem calls = (none, calls + rem) := by
  intro rem
  induction rem with
  | zero => intro calls; rfl
  | succ rem ih =>
    intro calls
    rw [retryFrom_succ_eq]
    cases hc : client calls with
    | ok v =>
      have hfail := hall calls
      rw [hc] at hfail
      simp [exceptIsError] at hfail
    | error e =>
      rw [ih (calls + 1), show calls + 1 + rem = calls + (rem + 1) from by omega]

/-- Against a client that fails the first k attempts and succeeds on attempt
k, the retry loop returns that success after exactly k + 1 attempts. -/
theorem retryFrom_first_success (client : Client) :
    ∀ rem calls k v, k < rem →
      (∀ j, j < k → exceptIsError (client (calls + j)) = true) →
      client (calls + k) = Except.ok v →
      retryFrom client rem calls = (some v, calls + k + 1) := by
  intro rem
  induction rem with
  | zero => intro calls k v hk; exact absurd hk (Nat.not_lt_zero k)
  | succ rem ih =>
    intro calls k v hk hfail hsucc
    rw [retryFrom_succ_eq]
    cases k with
    | zero =>
      rw [Nat.add_zero] at hsucc
      rw [hsucc]
    | succ k =>
      have h0 := hfail 0 (Nat.succ_pos k)
      rw [Nat.add_zero] at h0
      cases hc : client calls with
      | ok w =>
        rw [hc] at h0
        simp [exceptIsError] at h0
      | error e =>
        have h1 : ∀ j, j < k → exceptIsError (client (calls + 1 + j)) = true := by
          intro j hj
          have hsh := hfail (j + 1) (by omega)
          rwa [show calls + (j + 1) = calls + 1 + j from by omega] at hsh
        have h2 : client (calls + 1 + k) = Except.ok v := by
          rwa [show calls + (k + 1) = calls + 1 + k from by omega] at hsucc
        rw [ih (calls + 1) k v (by omega) h1 h2,
          show calls + 1 + k + 1 = calls + (k + 1) + 1 from by omega]

/-- A value strictly different from the Episode string literal fails the
strict-equality test of the checker. -/
theorem isEpisodeClass_eq_false_of_ne {v : JSVal} (h : v ≠ JSVal.str "Episode") :
    isEpisodeClass v = false := by
  cases v with
  | str s =>
    have hs : s ≠ "Episode" := fun hh => h (by rw [hh])
    simp [isEpisodeClass, hs]
  | undef => rfl
  | null => rfl
  | bool b => rfl
  | num n => rfl
  | obj fields => rfl

/-- The zero-padded rendering through padStart agrees with the direct
two-digit rendering for every season number below 100. -/
theorem padStart2_natRepr : ∀ n, n < 100 → padStart2 (Nat.repr n) = specPad2 n := by decide

/-! ## Claim theorems -/

/-- Claim C1: the deterministic batch checker returns true on an empty list;
otherwise it classifies the first path and returns false when that
classification is not Episode; otherwise it extracts series and season from
the first path only, pads the season to two digits, and returns true exactly
when the filename stem of every path matches the anchored derived pattern. -/
theorem checkBatch_deterministic_characterization (svc : Svc) (filePaths : List String) :
    (filePaths = [] → checkIfEpisodeMatchesFormatInBatch svc filePaths = true)
    ∧ ∀ first rest, filePaths = first :: rest →
        ((classifyFile svc first ≠ JSVal.str "Episode" →
            checkIfEpisodeMatchesFormatInBatch svc filePaths = false)
        ∧ (classifyFile svc first = JSVal.str "Episode" →
            ∀ seriesName seasonNumber,
              getSeriesName svc first = Except.ok seriesName →
              getSeasonNumber svc first = Except.ok seasonNumber →
              (checkIfEpisodeMatchesFormatInBatch svc filePaths = true ↔
                ∀ fp ∈ filePaths,
                  matchesFormatRegex (jsToString seriesName)
                    (padStart2 (jsNumToString seasonNumber))
                    (stemOf (pbasename fp)) = true))) := by
  constructor
  · intro h
    subst h
    rfl
  · intro first rest h
    subst h
    constructor
    · intro hne
      simp only [checkIfEpisodeMatchesFormatInBatch, checkBatchTry,
        isEpisodeClass_eq_false_of_ne hne]
      rfl
    · intro hcls seriesName seasonNumber hs hn
      have h1 : isEpisodeClass (classifyFile svc first) = true := by
        rw [hcls]
        rfl
      have h2 : checkIfEpisodeMatchesFormatInBatch svc (first :: rest) =
          (first :: rest).all fun fp =>
            matchesFormatRegex (jsToString seriesName)
              (padStart2 (jsNumToString seasonNumber))
              (stemOf (pbasename fp)) := by
        simp only [checkIfEpisodeMatchesFormatInBatch, checkBatchTry, h1, hs, hn]
        rfl
      rw [h2]
      exact List.all_eq_true

set_option maxRecDepth 100000 in
/-- Witness for C1: a canonical two-file batch under the concrete Show
season 1 response function is accepted. -/
theorem checkBatch_deterministic_characterization_witness :
    checkIfEpisodeMatchesFormatInBatch svcShow1 ["Show S01E01.mkv", "Show S01E02.mkv"] = true := by
  have h := (checkBatch_deterministic_characterization svcShow1
      ["Show S01E01.mkv", "Show S01E02.mkv"]).2 "Show S01E01.mkv" ["Show S01E02.mkv"] rfl
  exact (h.2 rfl (JSVal.str "Show") (JSNum.int 1) rfl rfl).mpr (by decide)

/-- Claim C2 (amended): the deterministic strategy resolves to false whenever
classification, extraction or the underlying service call errors; the
model-batch strategy instead rethrows a wrapped error from its top-level
catch rather than resolving to false. -/
theorem batchCheck_error_policy (svc : Svc) (first : String) (rest : List String) :
    (∀ e, svc (classifyRequest first) = Except.error e →
      checkIfEpisodeMatchesFormatInBatch svc (first :: rest) = false)
    ∧ (∀ e, getSeriesName svc first = Except.error e →
      checkIfEpisodeMatchesFormatInBatch svc (first :: rest) = false)
    ∧ (∀ e, getSeasonNumber svc first = Except.error e →
      checkIfEpisodeMatchesFormatInBatch svc (first :: rest) = false)
    ∧ (∀ filePaths e, svc (batchAIRequest filePaths) = Except.error e →
      checkIfEpisodeMatchesFormatInBatchAI svc filePaths =
        Except.error ("Failed to check if episodes match format in batch from Ollama API: " ++ e)) := by
  refine ⟨?_, ?_, ?_, ?_⟩
  · intro e he
    have hcl : classifyFile svc first = JSVal.str "Unrelated" := by
      unfold classifyFile classifyFileTry
      rw [he]
    simp only [checkIfEpisodeMatchesFormatInBatch, checkBatchTry, hcl]
    rfl
  · intro e he
    simp only [checkIfEpisodeMatchesFormatInBatch, checkBatchTry]
    cases hep : isEpisodeClass (classifyFile svc first) with
    | false => rfl
    | true =>
      rw [he]
      rfl
  · intro e he
    simp only [checkIfEpisodeMatchesFormatInBatch, checkBatchTry]
    cases hep : isEpisodeClass (classifyFile svc first) with
    | false => rfl
    | true =>
      cases hser : getSeriesName svc first with
      | error e2 => rfl
      | ok s =>
        rw [he]
        rfl
  · intro filePaths e he
    unfold checkIfEpisodeMatchesFormatInBatchAI
    rw [he]
    rfl

set_option maxRecDepth 100000 in
/-- Counterexample for C2 as stated: against an unreachable service the
model-batch strategy resolves to a wrapped thrown error, not to false. -/
theorem batchCheckAI_rethrows_counterexample :
    checkIfEpisodeMatchesFormatInBatchAI svcDown ["Movies/a.mkv"] =
      Except.error "Failed to check if episodes match format in batch from Ollama API: service unavailable"
    ∧ checkIfEpisodeMatchesFormatInBatchAI svcDown ["Movies/a.mkv"] ≠ Except.ok false := by
  constructor
  · rfl
  · intro hcontra
    rw [show checkIfEpisodeMatchesFormatInBatchAI svcDown ["Movies/a.mkv"] =
        Except.error "Failed to check if episodes match format in batch from Ollama API: service unavailable" from rfl] at hcontra
    exact Except.noConfusion hcontra

set_option maxRecDepth 100000 in
/-- Witness for C2 (amended): with an unreachable service the deterministic
strategy resolves to false and the model-batch strategy rethrows. -/
theorem batchCheck_error_policy_witness :
    checkIfEpisodeMatchesFormatInBatch svcDown ["Movies/a.mkv"] = false
    ∧ checkIfEpisodeMatchesFormatInBatchAI svcDown ["b.mkv"] =
      Except.error "Failed to check if episodes match format in batch from Ollama API: service unavailable" := by
  constructor
  · exact (batchCheck_error_policy svcDown "Movies/a.mkv" []).1 "service unavailable" rfl
  · exact (batchCheck_error_policy svcDown "x" []).2.2.2 ["b.mkv"] "service unavailable" rfl

/-- Claim C3: classification never propagates a failure; a thrown request
error, a falsy response and a falsy classification field all fall back to the
Unrelated string. -/
theorem classifyFile_fail_closed (svc : Svc) (filePath : String) :
    (∀ e, svc (classifyRequest filePath) = Except.error e →
      classifyFile svc filePath = JSVal.str "Unrelated")
    ∧ (∀ v, svc (classifyRequest filePath) = Except.ok v → truthy v = false →
      classifyFile svc filePath = JSVal.str "Unrelated")
    ∧ (∀ v c, svc (classifyRequest filePath) = Except.ok v → truthy v = true →
      getField v "classification" = Except.ok c → truthy c = false →
      classifyFile svc filePath = JSVal.str "Unrelated") := by
  refine ⟨?_, ?_, ?_⟩
  · intro e he
    unfold classifyFile classifyFileTry
    rw [he]
  · intro v hv htr
    unfold classifyFile classifyFileTry
    simp only [hv]
    rw [htr]
    rfl
  · intro v c hv htr hc hct
    unfold classifyFile classifyFileTry
    simp only [hv, hc]
    rw [htr, hct]
    rfl

set_option maxRecDepth 100000 in
/-- Witness for C3: classifying a stray file against an unreachable service
returns Unrelated. -/
theorem classifyFile_fail_closed_witness :
    classifyFile svcDown ".DS_Store" = JSVal.str "Unrelated" :=
  (classifyFile_fail_closed svcDown ".DS_Store").1 "service unavailable" rfl

/-- Claim C4: a client failing k of 15 attempts and then succeeding yields
the parsed result after exactly k + 1 invocations; a client failing every
attempt yields the absent result, without an error, after exactly 15
invocations. -/
theorem requestRetryWrapper_retry_policy (client : Client) (k : Nat) (v : JSVal) :
    (k < 15 → (∀ j, j < k → exceptIsError (client j) = true) → client k = Except.ok v →
      requestRetryWrapper client 0 = (some v, k + 1))
    ∧ ((∀ j, exceptIsError (client j) = true) →
      requestRetryWrapper client 0 = (none, 15)) := by
  constructor
  · intro hk hfail hsucc
    have h := retryFrom_first_success client 15 0 k v hk (by simpa using hfail) (by simpa using hsucc)
    simpa using h
  · intro hall
    have h := retryFrom_all_fail client hall 15 0
    simpa using h

/-- Witness for C4: a client failing twice then succeeding yields its value
after three invocations, and an always-failing client yields the absent
result after fifteen. -/
theorem requestRetryWrapper_retry_policy_witness :
    requestRetryWrapper clientFlaky 0 = (some (JSVal.obj [("test", JSVal.bool true)]), 3)
    ∧ requestRetryWrapper clientAlwaysFails 0 = (none, 15) := by
  constructor
  · exact (requestRetryWrapper_retry_policy clientFlaky 2 (JSVal.obj [("test", JSVal.bool true)])).1
      (by decide) (by intro j hj; interval_cases j <;> rfl) rfl
  · exact (requestRetryWrapper_retry_policy clientAlwaysFails 0 JSVal.null).2 (fun j => rfl)

/-- Claim C5: two sequential cached-client calls with the same request tuple
cause exactly one underlying invocation; the first stores its result under
the serialized key, the second returns the cached value with the state, in
particular the invocation count, unchanged. -/
theorem requestWrapper_cache_single_invocation (client : Client) (r : Request) (v : JSVal)
    (h : client 0 = Except.ok v) :
    requestWrapper client r ⟨[], 0⟩ =
      (some v, ⟨[(serializeRequest r, some v)], 1⟩)
    ∧ requestWrapper client r ⟨[(serializeRequest r, some v)], 1⟩ =
      (some v, ⟨[(serializeRequest r, some v)], 1⟩) := by
  have hr : requestRetryWrapper client 0 = (some v, 1) := by
    show retryFrom client 15 0 = (some v, 1)
    rw [show (15 : Nat) = 14 + 1 from rfl, retryFrom_succ_eq, h]
  constructor
  · unfold requestWrapper
    rw [show cacheLookup ([] : List (String × Option JSVal)) (serializeRequest r) = none from rfl, hr]
  · unfold requestWrapper
    rw [show cacheLookup [(serializeRequest r, some v)] (serializeRequest r) = some (some v) from by
      simp [cacheLookup]]

/-- Witness for C5: a concrete always-succeeding client and a small request
tuple exhibit the single-invocation cache behaviour. -/
theorem requestWrapper_cache_single_invocation_witness :
    requestWrapper clientAlwaysOk rTest ⟨[], 0⟩ =
      (some (JSVal.bool true), ⟨[(serializeRequest rTest, some (JSVal.bool true))], 1⟩)
    ∧ requestWrapper clientAlwaysOk rTest ⟨[(serializeRequest rTest, some (JSVal.bool true))], 1⟩ =
      (some (JSVal.bool true), ⟨[(serializeRequest rTest, some (JSVal.bool true))], 1⟩) :=
  requestWrapper_cache_single_invocation clientAlwaysOk rTest (JSVal.bool true) rfl

/-- Claim C6: when every attempt fails, the exhausted absent result is itself
stored under the serialized key after fifteen invocations, and every call
finding that cached absent entry returns it without changing the state, so
no further service attempt is ever made for that tuple. -/
theorem requestWrapper_caches_exhausted_failure (client : Client) (r : Request)
    (hall : ∀ j, exceptIsError (client j) = true) :
    requestWrapper client r ⟨[], 0⟩ = (none, ⟨[(serializeRequest r, none)], 15⟩)
    ∧ ∀ st : ServiceState, cacheLookup st.cache (serializeRequest r) = some none →
        requestWrapper client r st = (none, st) := by
  constructor
  · have hr : requestRetryWrapper client 0 = (none, 15) := by
      have h := retryFrom_all_fail client hall 15 0
      simpa using h
    unfold requestWrapper
    rw [show cacheLookup ([] : List (String × Option JSVal)) (serializeRequest r) = none from rfl, hr]
  · intro st hst
    unfold requestWrapper
    rw [hst]

/-- Witness for C6: a concrete always-failing client poisons the cache for
its request tuple and later calls return the cached absent result
unchanged. -/
theorem requestWrapper_caches_exhausted_failure_witness :
    requestWrapper clientAlwaysFails rTest ⟨[], 0⟩ =
      (none, ⟨[(serializeRequest rTest, none)], 15⟩)
    ∧ requestWrapper clientAlwaysFails rTest ⟨[(serializeRequest rTest, none)], 15⟩ =
      (none, ⟨[(serializeRequest rTest, none)], 15⟩) := by
  have h := requestWrapper_caches_exhausted_failure clientAlwaysFails rTest (fun j => rfl)
  exact ⟨h.1, h.2 ⟨[(serializeRequest rTest, none)], 15⟩ (by simp [cacheLookup])⟩

/-- Claim C7 (amended): season extraction fails with a validation error when
the season field is absent from the response, but it performs no
integer-validation: any truthy season field is passed through parseInt and
returned as-is, silently yielding NaN for a non-numeric value, whereas
episode extraction raises its not-a-number validation error in the same
situation. -/
theorem getSeasonNumber_validation_policy (svc : Svc) (filePath : String) :
    (∀ fields, svc (seasonRequest filePath) = Except.ok (JSVal.obj fields) →
      fieldLookup fields "season" = none →
      getSeasonNumber svc filePath =
        Except.error "Failed to get season number of the file from Ollama API: Season number not found in the response")
    ∧ (∀ v se, svc (seasonRequest filePath) = Except.ok v →
      getField v "season" = Except.ok se → truthy se = true →
      getSeasonNumber svc filePath = Except.ok (jsParseInt se))
    ∧ (∀ v ep, svc (episodeRequest filePath) = Except.ok v →
      getField v "episode" = Except.ok ep → truthy ep = true → jsParseInt ep = JSNum.nan →
      getEpisodeNumber svc filePath =
        Except.error "Failed to get episode number of the file from Ollama API: Episode number is not a number") := by
  refine ⟨?_, ?_, ?_⟩
  · intro fields hv hlook
    unfold getSeasonNumber
    simp only [hv, getField]
    rw [hlook]
    rfl
  · intro v se hv hget htr
    unfold getSeasonNumber
    simp only [hv, hget]
    rw [htr]
    rfl
  · intro v ep hv hget htr hnan
    unfold getEpisodeNumber
    simp only [hv, hget]
    rw [htr, hnan]
    rfl

set_option maxRecDepth 100000 in
/-- Counterexample for C7 as stated: a non-numeric season field does not
raise a validation error; the extraction resolves successfully to NaN. -/
theorem getSeasonNumber_nan_counterexample :
    getSeasonNumber svcSeasonAbc "Show S01E01.mkv" = Except.ok JSNum.nan := rfl

set_option maxRecDepth 100000 in
/-- Witness for C7 (amended): an absent season field raises not-found, a
non-numeric season resolves to NaN, and a non-numeric episode raises
not-a-number. -/
theorem getSeasonNumber_validation_policy_witness :
    getSeasonNumber svcNoSeason "x.mkv" =
      Except.error "Failed to get season number of the file from Ollama API: Season number not found in the response"
    ∧ getSeasonNumber svcSeasonAbc "x.mkv" = Except.ok JSNum.nan
    ∧ getEpisodeNumber svcNoSeason "x.mkv" =
      Except.error "Failed to get episode number of the file from Ollama API: Episode number is not a number" := by
  refine ⟨?_, ?_, ?_⟩
  · exact (getSeasonNumber_validation_policy svcNoSeason "x.mkv").1
      [("other", JSVal.num (JSNum.int 1))] rfl rfl
  · exact (getSeasonNumber_validation_policy svcSeasonAbc "x.mkv").2.1
      (JSVal.obj [("season", JSVal.str "abc")]) (JSVal.str "abc") rfl rfl rfl
  · exact (getSeasonNumber_validation_policy svcNoSeason "x.mkv").2.2
      (JSVal.obj [("episode", JSVal.str "xx")]) (JSVal.str "xx") rfl rfl rfl rfl

/-- Claim C8: when extraction on the extension-stripped stem yields a string
series, a season below 100 and some episode, the planner returns exactly the
directory of the file joined with the series folder, the two-digit padded season
folder and the original file name. -/
theorem generateNewFilePath_layout (svc : Svc) (filePath series : String)
    (season : Nat) (episode : JSNum)
    (hdet : getDetails svc (stemOf (pbasename filePath)) =
      Except.ok ⟨JSVal.str series, JSNum.int (Int.ofNat season), episode⟩)
    (hseason : season < 100) :
    generateNewFilePathIncludingParentFolders svc filePath =
      Except.ok (pjoinList [pdirname filePath,
        pjoinList [series, "Season " ++ specPad2 season, pbasename filePath]]) := by
  unfold generateNewFilePathIncludingParentFolders
  simp only [hdet]
  rw [show jsNumToString (JSNum.int (Int.ofNat season)) = Nat.repr season from rfl]
  rw [padStart2_natRepr season hseason]

set_option maxRecDepth 100000 in
/-- Witness for C8: planning the canonical Show season 2 episode yields the
nested Show/Season 02 path. -/
theorem generateNewFilePath_layout_witness :
    generateNewFilePathIncludingParentFolders svcShow "Show S02E20.mkv" =
      Except.ok "Show/Season 02/Show S02E20.mkv" := by
  have h := generateNewFilePath_layout svcShow "Show S02E20.mkv" "Show" 2 (JSNum.int 20) rfl
    (by decide)
  exact h.trans (by rfl)

/-- Claim C9: the idempotence check plans from the base file name alone and
returns exactly the suffix test of the full path against that plan. -/
theorem checkIfFileIsAlreadyInCorrectFoler_suffix (svc : Svc) (filePath plan : String)
    (h : generateNewFilePathIncludingParentFolders svc (pbasename filePath) = Except.ok plan) :
    checkIfFileIsAlreadyInCorrectFoler svc filePath = Except.ok (jsEndsWith filePath plan)
    ∧ (checkIfFileIsAlreadyInCorrectFoler svc filePath = Except.ok true ↔
        jsEndsWith filePath plan = true) := by
  have h1 : checkIfFileIsAlreadyInCorrectFoler svc filePath =
      Except.ok (jsEndsWith filePath plan) := by
    unfold checkIfFileIsAlreadyInCorrectFoler
    rw [h]
  refine ⟨h1, ?_⟩
  rw [h1]
  constructor
  · intro h2
    injection h2
  · intro h2
    rw [h2]

set_option maxRecDepth 100000 in
/-- Witness for C9: under the Show season 1 response function the nested path
is accepted and the bare file name is rejected. -/
theorem checkIfFileIsAlreadyInCorrectFoler_suffix_witness :
    checkIfFileIsAlreadyInCorrectFoler svcShow1 "Show/Season 01/Show S01E01.mkv" = Except.ok true
    ∧ checkIfFileIsAlreadyInCorrectFoler svcShow1 "Show S01E01.mkv" = Except.ok false := by
  constructor
  · exact ((checkIfFileIsAlreadyInCorrectFoler_suffix svcShow1 "Show/Season 01/Show S01E01.mkv"
      "Show/Season 01/Show S01E01.mkv" rfl).1).trans (by rfl)
  · exact ((checkIfFileIsAlreadyInCorrectFoler_suffix svcShow1 "Show S01E01.mkv"
      "Show/Season 01/Show S01E01.mkv" rfl).1).trans (by rfl)

/-- Claim C10: on a one-element batch the batch planner joins the
directory of the file onto the single-file plan, which already contains that directory,
so the directory prefix is applied twice. -/
theorem getNewFilePaths_single (svc : Svc) (p plan : String)
    (h : generateNewFilePathIncludingParentFolders svc p = Except.ok plan) :
    getNewFilePathsIncludingParentFolders svc [p] =
      Except.ok [pjoinList [pdirname p, plan]] := by
  unfold getNewFilePathsIncludingParentFolders
  rw [h]
  rfl

set_option maxRecDepth 100000 in
/-- Witness for C10: a directory-free path agrees with the single-file plan,
while a path beneath directory A duplicates that directory, diverging from
the single-file plan. -/
theorem getNewFilePaths_single_witness :
    getNewFilePathsIncludingParentFolders svcShow1 ["Show S01E01.mkv"] =
      Except.ok ["Show/Season 01/Show S01E01.mkv"]
    ∧ getNewFilePathsIncludingParentFolders svcShow1 ["A/Show S01E01.mkv"] =
      Except.ok ["A/A/Show/Season 01/Show S01E01.mkv"]
    ∧ generateNewFilePathIncludingParentFolders svcShow1 "A/Show S01E01.mkv" =
      Except.ok "A/Show/Season 01/Show S01E01.mkv" := by
  refine ⟨?_, ?_, rfl⟩
  · exact (getNewFilePaths_single svcShow1 "Show S01E01.mkv"
      "Show/Season 01/Show S01E01.mkv" rfl).trans (by rfl)
  · exact (getNewFilePaths_single svcShow1 "A/Show S01E01.mkv"
      "A/Show/Season 01/Show S01E01.mkv" rfl).trans (by rfl)

end SeriesRenamer
